import Mathlib

/-!
go-ntlm: verification of the NTLM v1/v2 session core.

Shallow embedding of `ntlm/ntlmv1.go` and `ntlm/ntlmv2.go` (the session state
machines, response computation and key derivation of the NTLMSSP core), with
the crypto-primitive layer (MD4, MD5, HMAC-MD5, DES, RC4, UTF-16LE) and the
parsed-message structures modelled from the specification where the
corresponding repository files are not part of the excerpt.

Bytes are `Nat` in `[0,256)`, byte strings are `List Nat`, Go strings are
lists of runes (`List Nat` of Unicode code points).
-/

namespace GoNtlm


/-- Byte strings: lists of byte values. -/
abbrev Bytes := List Nat

/-- Go strings, as lists of Unicode code points (runes). -/
abbrev GoStr := List Nat

/-- Rune list of a Lean string literal, for writing concrete inputs. -/
def gostr (s : String) : GoStr := s.data.map (fun c => c.toNat)

/-- `zeroBytes n` — n zero bytes (helpers.go, modelled from the spec:
`zeros(n)`). -/
def zeroBytes (n : Nat) : Bytes := List.replicate n 0

/-- Variadic byte-slice concatenation (helpers.go `concat`, modelled from the
spec: `||` on byte strings). -/
def concat (xs : List Bytes) : Bytes := xs.foldr (fun a b => a ++ b) []

/-- Little-endian byte encoding of `v` on `k` bytes. -/
def leBytes : Nat → Nat → Bytes
  | 0, _ => []
  | k + 1, v => (v % 256) :: leBytes k (v / 256)

/-- Little-endian decoding of a byte string (first byte least significant). -/
def leDecode (b : Bytes) : Nat := b.foldr (fun x acc => x + 256 * acc) 0

/-- `zeroPaddedBytes bytes offset size` (helpers.go, modelled from the spec:
"zero-pad/truncate to `size` bytes", reading from `offset`). -/
def zeroPaddedBytes (bytes : Bytes) (offset size : Nat) : Bytes :=
  List.take size ((bytes.drop offset) ++ zeroBytes size)

/-! ## 32-bit word arithmetic for MD4/MD5 -/

/-- Truncation to 32 bits. -/
def mask32 (x : Nat) : Nat := x % 4294967296

/-- 32-bit addition. -/
def add32 (a b : Nat) : Nat := (a + b) % 4294967296

/-- 32-bit left rotation (inputs assumed reduced mod 2^32). -/
def rotl32 (x n : Nat) : Nat :=
  ((x <<< n) % 4294967296) ||| (x >>> (32 - n))

/-- Bitwise complement on 32 bits. -/
def not32 (x : Nat) : Nat := x ^^^ 4294967295

/-- Group a list into chunks of `size`, with explicit fuel for structural
recursion; callers pass `l.length` as fuel. -/
def chunksAux {α : Type} (size : Nat) : Nat → List α → List (List α)
  | 0, _ => []
  | _, [] => []
  | fuel + 1, l => l.take size :: chunksAux size fuel (l.drop size)

/-- Group a list into chunks of `size` elements (the fuel `l.length` is more
than enough: each step consumes at least one element). -/
def chunks {α : Type} (size : Nat) (l : List α) : List (List α) := chunksAux size l.length l

/-- Concatenation of a list of lists. -/
def flat {α : Type} (xs : List (List α)) : List α := xs.foldr (fun a b => a ++ b) []

/-- Little-endian 32-bit words of a byte string (length a multiple of 4). -/
def bytesToWordsLE (b : Bytes) : List Nat := (chunks 4 b).map leDecode

/-- Little-endian bytes of a list of 32-bit words. -/
def wordsToBytesLE (ws : List Nat) : Bytes := concat (ws.map (leBytes 4))

/-- Merkle–Damgård padding shared by MD4 and MD5: append `0x80`, zero bytes to
56 mod 64, then the bit length as a little-endian 64-bit value. -/
def mdPad (msg : Bytes) : Bytes :=
  let l := msg.length
  let padLen := (56 + 64 - ((l + 1) % 64)) % 64
  msg ++ [0x80] ++ zeroBytes padLen ++ leBytes 8 ((8 * l) % 18446744073709551616)

/-! ## MD5 (crypto layer, modelled from the spec: "MD5(b) → 16 B, bit-exact
with MS-NLMP", i.e. standard RFC 1321 MD5) -/

/-- The 64 MD5 sine-table constants. -/
def md5K : List Nat :=
  [0xd76aa478, 0xe8c7b756, 0x242070db, 0xc1bdceee,
   0xf57c0faf, 0x4787c62a, 0xa8304613, 0xfd469501,
   0x698098d8, 0x8b44f7af, 0xffff5bb1, 0x895cd7be,
   0x6b901122, 0xfd987193, 0xa679438e, 0x49b40821,
   0xf61e2562, 0xc040b340, 0x265e5a51, 0xe9b6c7aa,
   0xd62f105d, 0x02441453, 0xd8a1e681, 0xe7d3fbc8,
   0x21e1cde6, 0xc33707d6, 0xf4d50d87, 0x455a14ed,
   0xa9e3e905, 0xfcefa3f8, 0x676f02d9, 0x8d2a4c8a,
   0xfffa3942, 0x8771f681, 0x6d9d6122, 0xfde5380c,
   0xa4beea44, 0x4bdecfa9, 0xf6bb4b60, 0xbebfbc70,
   0x289b7ec6, 0xeaa127fa, 0xd4ef3085, 0x04881d05,
   0xd9d4d039, 0xe6db99e5, 0x1fa27cf8, 0xc4ac5665,
   0xf4292244, 0x432aff97, 0xab9423a7, 0xfc93a039,
   0x655b59c3, 0x8f0ccc92, 0xffeff47d, 0x85845dd1,
   0x6fa87e4f, 0xfe2ce6e0, 0xa3014314, 0x4e0811a1,
   0xf7537e82, 0xbd3af235, 0x2ad7d2bb, 0xeb86d391]

/-- The 64 MD5 per-step rotation amounts. -/
def md5S : List Nat :=
  [7, 12, 17, 22, 7, 12, 17, 22, 7, 12, 17, 22, 7, 12, 17, 22,
   5, 9, 14, 20, 5, 9, 14, 20, 5, 9, 14, 20, 5, 9, 14, 20,
   4, 11, 16, 23, 4, 11, 16, 23, 4, 11, 16, 23, 4, 11, 16, 23,
   6, 10, 15, 21, 6, 10, 15, 21, 6, 10, 15, 21, 6, 10, 15, 21]

/-- MD5 round function for step `i`. -/
def md5F (i b c d : Nat) : Nat :=
  if i < 16 then (b &&& c) ||| (not32 b &&& d)
  else if i < 32 then (d &&& b) ||| (not32 d &&& c)
  else if i < 48 then b ^^^ c ^^^ d
  else c ^^^ (b ||| not32 d)

/-- MD5 message-word index for step `i`. -/
def md5G (i : Nat) : Nat :=
  if i < 16 then i
  else if i < 32 then (5 * i + 1) % 16
  else if i < 48 then (3 * i + 5) % 16
  else (7 * i) % 16

/-- One MD5 block compression of state `(a,b,c,d)` with 16 message words. -/
def md5Compress (st : Nat × Nat × Nat × Nat) (x : List Nat) : Nat × Nat × Nat × Nat :=
  let step := fun (s : Nat × Nat × Nat × Nat) (i : Nat) =>
    let (a, b, c, d) := s
    let f := md5F i b c d
    let na := add32 b (rotl32 (mask32 (a + f + md5K.getD i 0 + x.getD (md5G i) 0)) (md5S.getD i 0))
    (d, na, b, c)
  let (a, b, c, d) := (List.range 64).foldl step st
  let (a0, b0, c0, d0) := st
  (add32 a a0, add32 b b0, add32 c c0, add32 d d0)

/-- MD5 digest: 16 bytes. -/
def md5 (msg : Bytes) : Bytes :=
  let blocks := chunks 16 (bytesToWordsLE (mdPad msg))
  let st := blocks.foldl md5Compress (0x67452301, 0xefcdab89, 0x98badcfe, 0x10325476)
  wordsToBytesLE [st.1, st.2.1, st.2.2.1, st.2.2.2]

/-! ## MD4 (crypto layer, modelled from the spec: "MD4(b) → 16 B", standard
RFC 1320 MD4) -/

/-- MD4 round function for step `i`. -/
def md4F (i b c d : Nat) : Nat :=
  if i < 16 then (b &&& c) ||| (not32 b &&& d)
  else if i < 32 then (b &&& c) ||| (b &&& d) ||| (c &&& d)
  else b ^^^ c ^^^ d

/-- MD4 additive constant for step `i`. -/
def md4K (i : Nat) : Nat :=
  if i < 16 then 0 else if i < 32 then 0x5a827999 else 0x6ed9eba1

/-- MD4 message-word order over the 48 steps. -/
def md4X : List Nat :=
  [0, 1, 2, 3, 4, 5, 6, 7, 8, 9, 10, 11, 12, 13, 14, 15,
   0, 4, 8, 12, 1, 5, 9, 13, 2, 6, 10, 14, 3, 7, 11, 15,
   0, 8, 4, 12, 2, 10, 6, 14, 1, 9, 5, 13, 3, 11, 7, 15]

/-- MD4 per-step rotation amounts. -/
def md4S : List Nat :=
  [3, 7, 11, 19, 3, 7, 11, 19, 3, 7, 11, 19, 3, 7, 11, 19,
   3, 5, 9, 13, 3, 5, 9, 13, 3, 5, 9, 13, 3, 5, 9, 13,
   3, 9, 11, 15, 3, 9, 11, 15, 3, 9, 11, 15, 3, 9, 11, 15]

/-- One MD4 block compression. -/
def md4Compress (st : Nat × Nat × Nat × Nat) (x : List Nat) : Nat × Nat × Nat × Nat :=
  let step := fun (s : Nat × Nat × Nat × Nat) (i : Nat) =>
    let (a, b, c, d) := s
    let f := md4F i b c d
    let na := rotl32 (mask32 (a + f + md4K i + x.getD (md4X.getD i 0) 0)) (md4S.getD i 0)
    (d, na, b, c)
  let (a, b, c, d) := (List.range 48).foldl step st
  let (a0, b0, c0, d0) := st
  (add32 a a0, add32 b b0, add32 c c0, add32 d d0)

/-- MD4 digest: 16 bytes. -/
def md4 (msg : Bytes) : Bytes :=
  let blocks := chunks 16 (bytesToWordsLE (mdPad msg))
  let st := blocks.foldl md4Compress (0x67452301, 0xefcdab89, 0x98badcfe, 0x10325476)
  wordsToBytesLE [st.1, st.2.1, st.2.2.1, st.2.2.2]

/-! ## HMAC-MD5 (crypto layer, modelled from the spec: "HMAC-MD5(key, b) →
16 B", standard RFC 2104 construction over MD5) -/

/-- HMAC-MD5 of `msg` under `key`: 16 bytes. -/
def hmacMd5 (key msg : Bytes) : Bytes :=
  let k0 := if 64 < key.length then md5 key else key
  let k := k0 ++ zeroBytes (64 - k0.length)
  md5 ((k.map (fun b => b ^^^ 0x5c)) ++ md5 ((k.map (fun b => b ^^^ 0x36)) ++ msg))

/-! ## DES (crypto layer, modelled from the spec: "DES(key7, data8) → 8 B",
standard FIPS 46-3 DES with the 7-to-8-byte key expansion that spreads the 56
key bits across the high 7 bits of each key byte) -/

/-- Error kinds surfaced by the fallible primitives (spec §7 `CryptoFailure`)
and by the authentication comparison (`AuthenticationFailed`). -/
inductive NtlmErr where
  | couldNotAuthenticate
  | rc4KeySize
  deriving DecidableEq, Repr

/-- Big-endian value of a byte string, as a natural number. -/
def bytesToNat (bs : Bytes) : Nat := bs.foldl (fun acc b => 256 * acc + b) 0

/-- The `k` big-endian bytes of a `8k`-bit value. -/
def natToBytes (k x : Nat) : Bytes :=
  (List.range k).map (fun i => (x >>> (8 * (k - 1 - i))) % 256)

/-- Apply a 1-indexed DES permutation table to a `w`-bit word, gathering one
bit per table entry, most significant output bit first (bit 1 is the most
significant input bit, as in FIPS 46-3). -/
def permuteN (w : Nat) (table : List Nat) (x : Nat) : Nat :=
  table.foldl (fun acc p => 2 * acc + (x >>> (w - p)) % 2) 0

/-- DES initial permutation IP. -/
def desIP : List Nat :=
  [58, 50, 42, 34, 26, 18, 10, 2, 60, 52, 44, 36, 28, 20, 12, 4,
   62, 54, 46, 38, 30, 22, 14, 6, 64, 56, 48, 40, 32, 24, 16, 8,
   57, 49, 41, 33, 25, 17, 9, 1, 59, 51, 43, 35, 27, 19, 11, 3,
   61, 53, 45, 37, 29, 21, 13, 5, 63, 55, 47, 39, 31, 23, 15, 7]

/-- DES final permutation, computed as the inverse of IP. -/
def desFP : List Nat := (List.range 64).map (fun i => desIP.indexOf (i + 1) + 1)

/-- DES expansion E (32 → 48 bits). -/
def desE : List Nat :=
  [32, 1, 2, 3, 4, 5, 4, 5, 6, 7, 8, 9, 8, 9, 10, 11, 12, 13,
   12, 13, 14, 15, 16, 17, 16, 17, 18, 19, 20, 21, 20, 21, 22, 23, 24, 25,
   24, 25, 26, 27, 28, 29, 28, 29, 30, 31, 32, 1]

/-- DES permutation P. -/
def desP : List Nat :=
  [16, 7, 20, 21, 29, 12, 28, 17, 1, 15, 23, 26, 5, 18, 31, 10,
   2, 8, 24, 14, 32, 27, 3, 9, 19, 13, 30, 6, 22, 11, 4, 25]

/-- DES key permutation PC-1 (64 → 56 bits, drops parity bits). -/
def desPC1 : List Nat :=
  [57, 49, 41, 33, 25, 17, 9, 1, 58, 50, 42, 34, 26, 18,
   10, 2, 59, 51, 43, 35, 27, 19, 11, 3, 60, 52, 44, 36,
   63, 55, 47, 39, 31, 23, 15, 7, 62, 54, 46, 38, 30, 22,
   14, 6, 61, 53, 45, 37, 29, 21, 13, 5, 28, 20, 12, 4]

/-- DES key permutation PC-2 (56 → 48 bits). -/
def desPC2 : List Nat :=
  [14, 17, 11, 24, 1, 5, 3, 28, 15, 6, 21, 10,
   23, 19, 12, 4, 26, 8, 16, 7, 27, 20, 13, 2,
   41, 52, 31, 37, 47, 55, 30, 40, 51, 45, 33, 48,
   44, 49, 39, 56, 34, 53, 46, 42, 50, 36, 29, 32]

/-- Per-round key-schedule left-shift amounts. -/
def desShifts : List Nat := [1, 1, 2, 2, 2, 2, 2, 2, 1, 2, 2, 2, 2, 2, 2, 1]

/-- The eight DES S-boxes, each as a flat 64-entry row-major table. -/
def desSBoxes : List (List Nat) :=
  [[14, 4, 13, 1, 2, 15, 11, 8, 3, 10, 6, 12, 5, 9, 0, 7,
    0, 15, 7, 4, 14, 2, 13, 1, 10, 6, 12, 11, 9, 5, 3, 8,
    4, 1, 14, 8, 13, 6, 2, 11, 15, 12, 9, 7, 3, 10, 5, 0,
    15, 12, 8, 2, 4, 9, 1, 7, 5, 11, 3, 14, 10, 0, 6, 13],
   [15, 1, 8, 14, 6, 11, 3, 4, 9, 7, 2, 13, 12, 0, 5, 10,
    3, 13, 4, 7, 15, 2, 8, 14, 12, 0, 1, 10, 6, 9, 11, 5,
    0, 14, 7, 11, 10, 4, 13, 1, 5, 8, 12, 6, 9, 3, 2, 15,
    13, 8, 10, 1, 3, 15, 4, 2, 11, 6, 7, 12, 0, 5, 14, 9],
   [10, 0, 9, 14, 6, 3, 15, 5, 1, 13, 12, 7, 11, 4, 2, 8,
    13, 7, 0, 9, 3, 4, 6, 10, 2, 8, 5, 14, 12, 11, 15, 1,
    13, 6, 4, 9, 8, 15, 3, 0, 11, 1, 2, 12, 5, 10, 14, 7,
    1, 10, 13, 0, 6, 9, 8, 7, 4, 15, 14, 3, 11, 5, 2, 12],
   [7, 13, 14, 3, 0, 6, 9, 10, 1, 2, 8, 5, 11, 12, 4, 15,
    13, 8, 11, 5, 6, 15, 0, 3, 4, 7, 2, 12, 1, 10, 14, 9,
    10, 6, 9, 0, 12, 11, 7, 13, 15, 1, 3, 14, 5, 2, 8, 4,
    3, 15, 0, 6, 10, 1, 13, 8, 9, 4, 5, 11, 12, 7, 2, 14],
   [2, 12, 4, 1, 7, 10, 11, 6, 8, 5, 3, 15, 13, 0, 14, 9,
    14, 11, 2, 12, 4, 7, 13, 1, 5, 0, 15, 10, 3, 9, 8, 6,
    4, 2, 1, 11, 10, 13, 7, 8, 15, 9, 12, 5, 6, 3, 0, 14,
    11, 8, 12, 7, 1, 14, 2, 13, 6, 15, 0, 9, 10, 4, 5, 3],
   [12, 1, 10, 15, 9, 2, 6, 8, 0, 13, 3, 4, 14, 7, 5, 11,
    10, 15, 4, 2, 7, 12, 9, 5, 6, 1, 13, 14, 0, 11, 3, 8,
    9, 14, 15, 5, 2, 8, 12, 3, 7, 0, 4, 10, 1, 13, 11, 6,
    4, 3, 2, 12, 9, 5, 15, 10, 11, 14, 1, 7, 6, 0, 8, 13],
   [4, 11, 2, 14, 15, 0, 8, 13, 3, 12, 9, 7, 5, 10, 6, 1,
    13, 0, 11, 7, 4, 9, 1, 10, 14, 3, 5, 12, 2, 15, 8, 6,
    1, 4, 11, 13, 12, 3, 7, 14, 10, 15, 6, 8, 0, 5, 9, 2,
    6, 11, 13, 8, 1, 4, 10, 7, 9, 5, 0, 15, 14, 2, 3, 12],
   [13, 2, 8, 4, 6, 15, 11, 1, 10, 9, 3, 14, 5, 0, 12, 7,
    1, 15, 13, 8, 10, 3, 7, 4, 12, 5, 6, 11, 0, 14, 9, 2,
    7, 11, 4, 1, 9, 12, 14, 2, 0, 6, 10, 13, 15, 3, 5, 8,
    2, 1, 14, 7, 4, 10, 8, 13, 15, 12, 9, 0, 3, 5, 6, 11]]

/-- S-box substitution of a 48-bit word down to 32 bits: each 6-bit group
selects a row (outer bits) and a column (middle bits) of its S-box. -/
def desSubst (x : Nat) : Nat :=
  (List.range 8).foldl (fun acc i =>
    let g := (x >>> (42 - 6 * i)) % 64
    let row := 2 * (g >>> 5) + g % 2
    let col := (g >>> 1) % 16
    16 * acc + (desSBoxes.getD i []).getD (16 * row + col) 0) 0

/-- DES round function f(R, K) on 32-bit words. -/
def desF (r subkey : Nat) : Nat :=
  permuteN 32 desP (desSubst ((permuteN 32 desE r) ^^^ subkey))

/-- The 16 DES round subkeys from a 64-bit (with parity slots) key. -/
def desSubkeys (key64 : Nat) : List Nat :=
  let k := permuteN 64 desPC1 key64
  let rot := fun (v n : Nat) => ((v <<< n) + (v >>> (28 - n))) % (2 ^ 28)
  let step := fun (s : (Nat × Nat) × List Nat) (n : Nat) =>
    let c := rot s.1.1 n
    let d := rot s.1.2 n
    ((c, d), s.2 ++ [permuteN 56 desPC2 (c * 2 ^ 28 + d)])
  (desShifts.foldl step ((k >>> 28, k % 2 ^ 28), [])).2

/-- Expand a 7-byte key to the 64 key-bit slots: each group of 7 key bits is
followed by an ignored low (parity) bit, per the spec's key-expansion
contract. -/
def desExpandKey (key7 : Bytes) : Nat :=
  let k := bytesToNat key7
  (List.range 8).foldl (fun acc i => 256 * acc + ((k >>> (49 - 7 * i)) % 128) * 2) 0

/-- One DES block encryption of `data8` under the 7-byte key `key7`. Total
function; meaningful on a 7-byte key and an 8-byte block, the only sizes the
program feeds it. -/
def desBlock (key7 data8 : Bytes) : Bytes :=
  let subkeys := desSubkeys (desExpandKey key7)
  let x := permuteN 64 desIP (bytesToNat data8)
  let step := fun (s : Nat × Nat) (k : Nat) => (s.2, s.1 ^^^ desF s.2 k)
  let lr := subkeys.foldl step (x >>> 32, x % 2 ^ 32)
  natToBytes 8 (permuteN 64 desFP (lr.2 * 2 ^ 32 + lr.1))

/-- `des(key7, data8)` (crypto.go, modelled from the spec): the Go wrapper
returns an `([]byte, error)` pair whose error is never non-nil on the
expanded 8-byte key, so the embedding always returns `ok`. -/
def des (key data : Bytes) : Except NtlmErr Bytes := Except.ok (desBlock key data)

/-- `desL(key16, data8)` (crypto.go, modelled from the spec: right-zero-pad
the key to 21 bytes, then concatenate the three DES encryptions under its
7-byte thirds). -/
def desL (key data : Bytes) : Except NtlmErr Bytes := do
  let k := key ++ zeroBytes (21 - key.length)
  let r1 ← des (k.take 7) data
  let r2 ← des ((k.drop 7).take 7) data
  let r3 ← des ((k.drop 14).take 7) data
  return r1 ++ r2 ++ r3

/-! ## RC4 (crypto layer, modelled from the spec: `RC4_INIT` / `RC4K`,
standard RC4; `rc4Init` mirrors Go's `rc4.NewCipher`, which rejects key sizes
outside [1, 256]) -/

/-- RC4 stream state: the 256-byte permutation and the two indices. -/
structure Rc4State where
  s : List Nat
  i : Nat
  j : Nat
  deriving DecidableEq, Repr

/-- RC4 key schedule. -/
def rc4Ksa (key : Bytes) : Rc4State :=
  let step := fun (st : List Nat × Nat) (i : Nat) =>
    let (s, j) := st
    let j := (j + s.getD i 0 + key.getD (i % key.length) 0) % 256
    let si := s.getD i 0
    let sj := s.getD j 0
    ((s.set i sj).set j si, j)
  { s := ((List.range 256).foldl step (List.range 256, 0)).1, i := 0, j := 0 }

/-- One RC4 keystream byte: updated state and output. -/
def rc4Next (st : Rc4State) : Rc4State × Nat :=
  let i := (st.i + 1) % 256
  let j := (st.j + st.s.getD i 0) % 256
  let si := st.s.getD i 0
  let sj := st.s.getD j 0
  let s := (st.s.set i sj).set j si
  ({ s := s, i := i, j := j }, s.getD ((si + sj) % 256) 0)

/-- RC4 encryption of a byte string, returning the ciphertext and the
advanced stream state. -/
def rc4Stream (st : Rc4State) (data : Bytes) : Bytes × Rc4State :=
  let step := fun (acc : Bytes × Rc4State) (b : Nat) =>
    let (out, st) := acc
    let (st, k) := rc4Next st
    (out ++ [b ^^^ k], st)
  data.foldl step ([], st)

/-- `rc4Init(key)` (crypto.go, modelled from the spec): errors exactly when
Go's `rc4.NewCipher` does, on a key shorter than 1 or longer than 256
bytes. -/
def rc4Init (key : Bytes) : Except NtlmErr Rc4State :=
  if key.length < 1 || 256 < key.length then Except.error NtlmErr.rc4KeySize
  else Except.ok (rc4Ksa key)

/-- `rc4K(key, ciphertext)` (crypto.go, modelled from the spec: one-shot
RC4, init + encrypt with the state discarded). -/
def rc4K (key ciphertext : Bytes) : Except NtlmErr Bytes := do
  let st ← rc4Init key
  return (rc4Stream st ciphertext).1

/-! ## Strings (helpers.go `utf16FromString` and Go's `strings.ToUpper` /
`[]byte(s)`, modelled from the spec: UTF-16LE with no BOM and no terminator;
uppercasing restricted to ASCII, the only range the program's inputs use) -/

/-- UTF-16LE code units of one rune (surrogate pair above the BMP). -/
def utf16Rune (r : Nat) : Bytes :=
  if r < 0x10000 then leBytes 2 r
  else leBytes 2 (0xD800 + (r - 0x10000) / 0x400) ++ leBytes 2 (0xDC00 + (r - 0x10000) % 0x400)

/-- `utf16FromString`: UTF-16LE bytes of a Go string. -/
def utf16FromString (s : GoStr) : Bytes := flat (s.map utf16Rune)

/-- UTF-8 bytes of one rune. -/
def utf8Rune (r : Nat) : Bytes :=
  if r < 0x80 then [r]
  else if r < 0x800 then [0xC0 ||| (r >>> 6), 0x80 ||| (r &&& 0x3F)]
  else if r < 0x10000 then
    [0xE0 ||| (r >>> 12), 0x80 ||| ((r >>> 6) &&& 0x3F), 0x80 ||| (r &&& 0x3F)]
  else
    [0xF0 ||| (r >>> 18), 0x80 ||| ((r >>> 12) &&& 0x3F),
     0x80 ||| ((r >>> 6) &&& 0x3F), 0x80 ||| (r &&& 0x3F)]

/-- `[]byte(s)`: UTF-8 bytes of a Go string. -/
def utf8Bytes (s : GoStr) : Bytes := flat (s.map utf8Rune)

/-- `strings.ToUpper`, on the ASCII range. -/
def toUpperStr (s : GoStr) : GoStr :=
  s.map (fun r => if 97 ≤ r ∧ r ≤ 122 then r - 32 else r)

/-! ## Negotiate flags (negotiate_flags.go, modelled from the spec's MS-NLMP
flag names; bit positions per MS-NLMP §2.2.2.5) -/

def NTLMSSP_NEGOTIATE_DATAGRAM : Nat := 0x00000040

def NTLMSSP_NEGOTIATE_LM_KEY : Nat := 0x00000080

def NTLMSSP_NEGOTIATE_EXTENDED_SESSIONSECURITY : Nat := 0x00080000

def NTLMSSP_REQUEST_NON_NT_SESSION_KEY : Nat := 0x00400000

def NTLMSSP_NEGOTIATE_TARGET_INFO : Nat := 0x00800000

def NTLMSSP_NEGOTIATE_128 : Nat := 0x20000000

def NTLMSSP_NEGOTIATE_KEY_EXCH : Nat := 0x40000000

def NTLMSSP_NEGOTIATE_56 : Nat := 0x80000000

/-- `flag.IsSet(flags)`: the flag's bit is set in the 32-bit flag word. -/
def flagIsSet (flag flags : Nat) : Bool := (flags &&& flag) != 0

/-! ## Password hash functions (ntlmv1.go / ntlmv2.go) -/

/-- `ntowfv1(passwd)` = MD4(UTF-16LE(passwd)) — ntlmv1.go. -/
def ntowfv1 (passwd : GoStr) : Bytes := md4 (utf16FromString passwd)

/-- The literal `"KGS!@#$%"` DES plaintext of LMOWFv1. -/
def kgsBytes : Bytes := gostr "KGS!@#$%"

/-- `lmowfv1(passwd)` — ntlmv1.go: ascii-uppercase the password, zero-pad or
truncate to 14 bytes, DES-encrypt `"KGS!@#$%"` under each half. -/
def lmowfv1 (passwd : GoStr) : Except NtlmErr Bytes := do
  let asciiPassword := utf8Bytes (toUpperStr passwd)
  let keyBytes := zeroPaddedBytes asciiPassword 0 14
  let first ← des (keyBytes.take 7) kgsBytes
  let second ← des ((keyBytes.drop 7).take 7) kgsBytes
  return first ++ second

/-- `ntowfv2(user, passwd, userDom)` — ntlmv2.go: HMAC-MD5 keyed by
MD4(UTF-16LE(passwd)) over UTF-16LE(uppercase(user) ++ userDom). -/
def ntowfv2 (user passwd userDom : GoStr) : Bytes :=
  hmacMd5 (md4 (utf16FromString passwd)) (utf16FromString (toUpperStr user ++ userDom))

/-- `lmowfv2(user, passwd, userDom)` — ntlmv2.go: identical to `ntowfv2`. -/
def lmowfv2 (user passwd userDom : GoStr) : Bytes := ntowfv2 user passwd userDom

/-! ## Directional key derivation (keys.go, modelled from the spec §4.2) -/

/-- NUL-terminated ASCII bytes of a magic-constant literal. -/
def asciiz (s : String) : Bytes := gostr s ++ [0]

/-- `signKey(flags, exportedSessionKey, side)` (modelled from the spec:
MD5(exported ++ side-specific signing magic constant)). -/
def signKey (negotiateFlags : Nat) (exportedSessionKey : Bytes) (side : String) : Bytes :=
  if side = "Client" then
    md5 (exportedSessionKey ++ asciiz "session key to client-to-server signing key magic constant")
  else
    md5 (exportedSessionKey ++ asciiz "session key to server-to-client signing key magic constant")

/-- `sealKey(flags, exportedSessionKey, side)` (modelled from the spec:
under extended session security, MD5 of a strength-dependent key prefix and
the side-specific sealing magic; otherwise the MS-NLMP §3.4.5.3 legacy 40/56
derivation). -/
def sealKey (negotiateFlags : Nat) (exportedSessionKey : Bytes) (side : String) : Bytes :=
  if flagIsSet NTLMSSP_NEGOTIATE_EXTENDED_SESSIONSECURITY negotiateFlags then
    let keyPart :=
      if flagIsSet NTLMSSP_NEGOTIATE_128 negotiateFlags then exportedSessionKey
      else if flagIsSet NTLMSSP_NEGOTIATE_56 negotiateFlags then exportedSessionKey.take 7
      else exportedSessionKey.take 5
    if side = "Client" then
      md5 (keyPart ++ asciiz "session key to client-to-server sealing key magic constant")
    else
      md5 (keyPart ++ asciiz "session key to server-to-client sealing key magic constant")
  else if flagIsSet NTLMSSP_NEGOTIATE_LM_KEY negotiateFlags ||
          flagIsSet NTLMSSP_NEGOTIATE_DATAGRAM negotiateFlags then
    if flagIsSet NTLMSSP_NEGOTIATE_56 negotiateFlags then
      exportedSessionKey.take 7 ++ [0xA0]
    else
      exportedSessionKey.take 5 ++ [0xE5, 0x38, 0xB0]
  else exportedSessionKey

/-- `kxKey(flags, sessionBaseKey, lmChallengeResponse, serverChallenge,
responseKeyLM)` (modelled from the spec: the classic NTLMv1 key-exchange-key
construction of MS-NLMP §3.4.5.1, reached only in the non-extended path). -/
def kxKey (negotiateFlags : Nat) (sessionBaseKey lmChallengeResponse serverChallenge responseKeyLM : Bytes) :
    Except NtlmErr Bytes :=
  if flagIsSet NTLMSSP_NEGOTIATE_LM_KEY negotiateFlags then do
    let r1 ← des (responseKeyLM.take 7) (lmChallengeResponse.take 8)
    let r2 ← des ([responseKeyLM.getD 7 0] ++ [0xBD, 0xBD, 0xBD, 0xBD, 0xBD, 0xBD])
               (lmChallengeResponse.take 8)
    return r1 ++ r2
  else if flagIsSet NTLMSSP_REQUEST_NON_NT_SESSION_KEY negotiateFlags then
    return responseKeyLM.take 8 ++ zeroBytes 8
  else
    return sessionBaseKey

/-! ## Parsed messages (message layer, modelled from the spec §6: only the
accessors the session core reads) -/

/-- The version structure carried by the handshake messages. -/
structure VersionStruct where
  productMajorVersion : Nat
  productMinorVersion : Nat
  productBuild : Nat
  ntlmRevisionCurrent : Nat
  deriving DecidableEq, Repr

/-- The default version both server paths synthesize (6.1.7601, revision
15). -/
def defaultVersion : VersionStruct :=
  { productMajorVersion := 6, productMinorVersion := 1, productBuild := 7601, ntlmRevisionCurrent := 15 }

/-- The part of `NtlmV2Response.NtlmV2ClientChallenge` the server reads: the
8-byte timestamp and the raw AV-pair bytes (`AvPairs.Bytes()`). -/
structure NtlmV2ClientChallenge where
  timeStamp : Bytes := []
  avPairsBytes : Bytes := []
  deriving DecidableEq, Repr

/-- The parsed AUTHENTICATE message, reduced to the fields the session core
consumes (payload byte slices for the payload-struct fields, rune strings for
the string payloads). -/
structure AuthenticateMessage where
  negotiateFlags : Nat := 0
  clientChallenge : Bytes := []
  encryptedRandomSessionKey : Bytes := []
  userName : GoStr := []
  domainName : GoStr := []
  workstation : GoStr := []
  ntChallengeResponseFields : Bytes := []
  lmChallengeResponse : Bytes := []
  mic : Bytes := []
  version : Option VersionStruct := none
  ntlmV2Response : NtlmV2ClientChallenge := {}
  deriving DecidableEq, Repr

/-! ## Session data (session_data.go, modelled from the spec §3) -/

/-- The shared per-session record. Fresh sessions have all byte fields empty,
both RC4 handles unset and no cached message, matching Go zero values. -/
structure SessionData where
  user : GoStr := []
  password : GoStr := []
  userDomain : GoStr := []
  workstation : GoStr := []
  NegotiateFlags : Nat := 0
  serverChallenge : Bytes := []
  clientChallenge : Bytes := []
  responseKeyLM : Bytes := []
  responseKeyNT : Bytes := []
  ntChallengeResponse : Bytes := []
  lmChallengeResponse : Bytes := []
  sessionBaseKey : Bytes := []
  keyExchangeKey : Bytes := []
  exportedSessionKey : Bytes := []
  encryptedRandomSessionKey : Bytes := []
  ClientSigningKey : Bytes := []
  ServerSigningKey : Bytes := []
  ClientSealingKey : Bytes := []
  ServerSealingKey : Bytes := []
  clientHandle : Option Rc4State := none
  serverHandle : Option Rc4State := none
  mic : Bytes := []
  authenticateMessage : Option AuthenticateMessage := none
  deriving DecidableEq, Repr

/-! ## NTLMv2 session operations (ntlmv2.go) -/

/-- `V2Session.fetchResponseKeys` — ntlmv2.go lines 47-53 (its Go error is
always nil, so the embedding is pure). -/
def V2Session.fetchResponseKeys (n : SessionData) : SessionData :=
  { n with responseKeyLM := lmowfv2 n.user n.password n.userDomain,
           responseKeyNT := ntowfv2 n.user n.password n.userDomain }

/-- `V2Session.computeExpectedResponses` — ntlmv2.go lines 62-69. -/
def V2Session.computeExpectedResponses (n : SessionData) (timestamp avPairBytes : Bytes) :
    SessionData :=
  let temp := concat [[0x01], [0x01], zeroBytes 6, timestamp, n.clientChallenge, zeroBytes 4,
                      avPairBytes, zeroBytes 4]
  let ntProofStr := hmacMd5 n.responseKeyNT (concat [n.serverChallenge, temp])
  { n with ntChallengeResponse := concat [ntProofStr, temp],
           lmChallengeResponse :=
             concat [hmacMd5 n.responseKeyLM (concat [n.serverChallenge, n.clientChallenge]),
                     n.clientChallenge],
           sessionBaseKey := hmacMd5 n.responseKeyNT ntProofStr }

/-- `V2Session.computeKeyExchangeKey` — ntlmv2.go lines 71-74. -/
def V2Session.computeKeyExchangeKey (n : SessionData) : SessionData :=
  { n with keyExchangeKey := n.sessionBaseKey }

/-- `V2Session.calculateKeys` — ntlmv2.go lines 76-82 (the revision argument
is unused by the source too). -/
def V2Session.calculateKeys (n : SessionData) (ntlmRevisionCurrent : Nat) : SessionData :=
  { n with ClientSigningKey := signKey n.NegotiateFlags n.exportedSessionKey "Client",
           ServerSigningKey := signKey n.NegotiateFlags n.exportedSessionKey "Server",
           ClientSealingKey := sealKey n.NegotiateFlags n.exportedSessionKey "Client",
           ServerSealingKey := sealKey n.NegotiateFlags n.exportedSessionKey "Server" }

/-- `V2Session.Seal` — ntlmv2.go lines 84-86: returns a nil slice and a nil
error. -/
def V2Session.Seal (n : SessionData) (message : Bytes) : Option Bytes × Option NtlmErr :=
  (none, none)

/-- `V2Session.Sign` — ntlmv2.go lines 88-90: returns a nil slice and a nil
error. -/
def V2Session.Sign (n : SessionData) (message : Bytes) : Option Bytes × Option NtlmErr :=
  (none, none)

/-- `V2ServerSession.computeExportedSessionKey` — ntlmv2.go lines 267-281. -/
def V2ServerSession.computeExportedSessionKey (n : SessionData) : Except NtlmErr SessionData :=
  if flagIsSet NTLMSSP_NEGOTIATE_KEY_EXCH n.NegotiateFlags then do
    let k ← rc4K n.keyExchangeKey n.encryptedRandomSessionKey
    return { n with exportedSessionKey := k }
  else
    return { n with exportedSessionKey := n.keyExchangeKey }

/-- The field adoption at the head of `V2ServerSession.ProcessAuthenticateMessage`
— ntlmv2.go lines 199-207: cache the message and take flags, client
challenge, encrypted session key and identity from it. -/
def V2ServerSession.loadIdentity (n : SessionData) (am : AuthenticateMessage) : SessionData :=
  { n with authenticateMessage := some am,
           NegotiateFlags := am.negotiateFlags,
           clientChallenge := am.clientChallenge,
           encryptedRandomSessionKey := am.encryptedRandomSessionKey,
           user := am.userName,
           userDomain := am.domainName,
           workstation := am.workstation }

/-- `V2ServerSession.ProcessAuthenticateMessage` — ntlmv2.go lines 198-265.
Returns the mutated session and message together with the Go error value
(the receiver keeps its partial mutations when an error is returned, exactly
as a Go method's receiver does). -/
def V2ServerSession.processAuthenticateMessage (n : SessionData) (am : AuthenticateMessage) :
    SessionData × AuthenticateMessage × Option NtlmErr :=
  let n := V2ServerSession.loadIdentity n am
  let n := V2Session.fetchResponseKeys n
  let timestamp := am.ntlmV2Response.timeStamp
  let avPairsBytes := am.ntlmV2Response.avPairsBytes
  let n := V2Session.computeExpectedResponses n timestamp avPairsBytes
  if am.ntChallengeResponseFields ≠ n.ntChallengeResponse ∧
     am.lmChallengeResponse ≠ n.lmChallengeResponse then
    (n, am, some NtlmErr.couldNotAuthenticate)
  else
    let n := V2Session.computeKeyExchangeKey n
    let n := { n with mic := am.mic }
    let am := { am with mic := zeroBytes 16 }
    match V2ServerSession.computeExportedSessionKey n with
    | Except.error e => (n, am, some e)
    | Except.ok n =>
      let am := if am.version = none then { am with version := some defaultVersion } else am
      let n := V2Session.calculateKeys n (am.version.getD defaultVersion).ntlmRevisionCurrent
      match rc4Init n.ClientSealingKey with
      | Except.error e => (n, am, some e)
      | Except.ok ch =>
        let n := { n with clientHandle := some ch }
        match rc4Init n.ServerSealingKey with
        | Except.error e => (n, am, some e)
        | Except.ok sh => ({ n with serverHandle := some sh }, am, none)

/-- `V2ClientSession.computeEncryptedSessionKey` — ntlmv2.go lines 370-381,
with the fresh 16-byte random key passed in explicitly (the spec requires the
randomness source to be injectable). -/
def V2ClientSession.computeEncryptedSessionKey (n : SessionData) (randomSessionKey : Bytes) :
    Except NtlmErr SessionData :=
  if flagIsSet NTLMSSP_NEGOTIATE_KEY_EXCH n.NegotiateFlags then do
    let n := { n with exportedSessionKey := randomSessionKey }
    let enc ← rc4K n.keyExchangeKey n.exportedSessionKey
    return { n with encryptedRandomSessionKey := enc }
  else
    return { n with encryptedRandomSessionKey := n.keyExchangeKey }

/-- `timeToWindowsFileTime` — ntlmv2.go lines 402-408, with the Go `time.Time`
represented by its Unix seconds; `binary.Write(LittleEndian, int64)` writes
the 8 little-endian bytes of the value's two's complement. -/
def timeToWindowsFileTime (unixSeconds : Int) : Bytes :=
  leBytes 8 ((unixSeconds * 10000000 + 116444736000000000).emod 18446744073709551616).toNat

/-! ## NTLMv1 session operations (ntlmv1.go) -/

/-- `V1Session.fetchResponseKeys` — ntlmv1.go lines 43-50. -/
def V1Session.fetchResponseKeys (n : SessionData) : Except NtlmErr SessionData := do
  let lm ← lmowfv1 n.password
  let n := { n with responseKeyLM := lm }
  return { n with responseKeyNT := ntowfv1 n.password }

/-- `V1Session.computeExpectedResponses` — ntlmv1.go lines 52-80, including
the hard-coded `noLmResponseNtlmV1 := false` branch. -/
def V1Session.computeExpectedResponses (n : SessionData) : Except NtlmErr SessionData :=
  if flagIsSet NTLMSSP_NEGOTIATE_EXTENDED_SESSIONSECURITY n.NegotiateFlags then do
    let nt ← desL n.responseKeyNT ((md5 (concat [n.serverChallenge, n.clientChallenge])).take 8)
    let n := { n with ntChallengeResponse := nt }
    return { n with lmChallengeResponse := concat [n.clientChallenge, zeroBytes 16] }
  else do
    let nt ← desL n.responseKeyNT n.serverChallenge
    let n := { n with ntChallengeResponse := nt }
    let noLmResponseNtlmV1 := false
    if noLmResponseNtlmV1 then
      return { n with lmChallengeResponse := n.ntChallengeResponse }
    else do
      let lm ← desL n.responseKeyLM n.serverChallenge
      return { n with lmChallengeResponse := lm }

/-- `V1Session.computeSessionBaseKey` — ntlmv1.go lines 82-85. -/
def V1Session.computeSessionBaseKey (n : SessionData) : SessionData :=
  { n with sessionBaseKey := md4 n.responseKeyNT }

/-- `V1Session.computeKeyExchangeKey` — ntlmv1.go lines 87-94. -/
def V1Session.computeKeyExchangeKey (n : SessionData) : Except NtlmErr SessionData :=
  if flagIsSet NTLMSSP_NEGOTIATE_EXTENDED_SESSIONSECURITY n.NegotiateFlags then
    let kxk := hmacMd5 n.sessionBaseKey (concat [n.serverChallenge, n.lmChallengeResponse.take 8])
    return { n with keyExchangeKey := kxk }
  else do
    let k ← kxKey n.NegotiateFlags n.sessionBaseKey n.lmChallengeResponse n.serverChallenge
              n.responseKeyLM
    return { n with keyExchangeKey := k }

/-- `V1Session.calculateKeys` — ntlmv1.go lines 96-102. -/
def V1Session.calculateKeys (n : SessionData) (ntlmRevisionCurrent : Nat) : SessionData :=
  { n with ClientSigningKey := signKey n.NegotiateFlags n.exportedSessionKey "Client",
           ServerSigningKey := signKey n.NegotiateFlags n.exportedSessionKey "Server",
           ClientSealingKey := sealKey n.NegotiateFlags n.exportedSessionKey "Client",
           ServerSealingKey := sealKey n.NegotiateFlags n.exportedSessionKey "Server" }

/-- `V1Session.Seal` — ntlmv1.go lines 104-106. -/
def V1Session.Seal (n : SessionData) (message : Bytes) : Option Bytes × Option NtlmErr :=
  (none, none)

/-- `V1Session.Sign` — ntlmv1.go lines 108-110. -/
def V1Session.Sign (n : SessionData) (message : Bytes) : Option Bytes × Option NtlmErr :=
  (none, none)

/-- `V1ServerSession.computeExportedSessionKey` — ntlmv1.go lines 244-258. -/
def V1ServerSession.computeExportedSessionKey (n : SessionData) : Except NtlmErr SessionData :=
  if flagIsSet NTLMSSP_NEGOTIATE_KEY_EXCH n.NegotiateFlags then do
    let k ← rc4K n.keyExchangeKey n.encryptedRandomSessionKey
    return { n with exportedSessionKey := k }
  else
    return { n with exportedSessionKey := n.keyExchangeKey }

/-- The field adoption at the head of `V1ServerSession.ProcessAuthenticateMessage`
— ntlmv1.go lines 172-179 (no workstation in v1). -/
def V1ServerSession.loadIdentity (n : SessionData) (am : AuthenticateMessage) : SessionData :=
  { n with authenticateMessage := some am,
           NegotiateFlags := am.negotiateFlags,
           clientChallenge := am.clientChallenge,
           encryptedRandomSessionKey := am.encryptedRandomSessionKey,
           user := am.userName,
           userDomain := am.domainName }

/-- `V1ServerSession.ProcessAuthenticateMessage` — ntlmv1.go lines 171-242,
same conventions as the v2 embedding. The comparison disallows the LM
fallback under extended session security (lines 202-210). -/
def V1ServerSession.processAuthenticateMessage (n : SessionData) (am : AuthenticateMessage) :
    SessionData × AuthenticateMessage × Option NtlmErr :=
  let n := V1ServerSession.loadIdentity n am
  match V1Session.fetchResponseKeys n with
  | Except.error e => (n, am, some e)
  | Except.ok n =>
  match V1Session.computeExpectedResponses n with
  | Except.error e => (n, am, some e)
  | Except.ok n =>
  let n := V1Session.computeSessionBaseKey n
  match V1Session.computeKeyExchangeKey n with
  | Except.error e => (n, am, some e)
  | Except.ok n =>
  if am.ntChallengeResponseFields ≠ n.ntChallengeResponse ∧
     (am.lmChallengeResponse ≠ n.lmChallengeResponse ∨
      flagIsSet NTLMSSP_NEGOTIATE_EXTENDED_SESSIONSECURITY n.NegotiateFlags = true) then
    (n, am, some NtlmErr.couldNotAuthenticate)
  else
    let n := { n with mic := am.mic }
    let am := { am with mic := zeroBytes 16 }
    match V1ServerSession.computeExportedSessionKey n with
    | Except.error e => (n, am, some e)
    | Except.ok n =>
      let am := if am.version = none then { am with version := some defaultVersion } else am
      let n := V1Session.calculateKeys n (am.version.getD defaultVersion).ntlmRevisionCurrent
      match rc4Init n.ClientSealingKey with
      | Except.error e => (n, am, some e)
      | Except.ok ch =>
        let n := { n with clientHandle := some ch }
        match rc4Init n.ServerSealingKey with
        | Except.error e => (n, am, some e)
        | Except.ok sh => ({ n with serverHandle := some sh }, am, none)

/-- `V1ClientSession.computeEncryptedSessionKey` — ntlmv1.go lines 345-356,
with the fresh random key injected as in the v2 embedding. -/
def V1ClientSession.computeEncryptedSessionKey (n : SessionData) (randomSessionKey : Bytes) :
    Except NtlmErr SessionData :=
  if flagIsSet NTLMSSP_NEGOTIATE_KEY_EXCH n.NegotiateFlags then do
    let n := { n with exportedSessionKey := randomSessionKey }
    let enc ← rc4K n.keyExchangeKey n.exportedSessionKey
    return { n with encryptedRandomSessionKey := enc }
  else
    return { n with encryptedRandomSessionKey := n.keyExchangeKey }

/-! ## Value companions for the fallible Go functions that never actually
return a non-nil error (their Go error results are structurally nil), with
the equations connecting them to the embedded functions -/

/-- The value `desL` always returns. -/
def desLVal (key data : Bytes) : Bytes :=
  let k := key ++ zeroBytes (21 - key.length)
  desBlock (k.take 7) data ++ desBlock ((k.drop 7).take 7) data ++ desBlock ((k.drop 14).take 7) data

/-- The value `lmowfv1` always returns. -/
def lmowfv1Val (passwd : GoStr) : Bytes :=
  let keyBytes := zeroPaddedBytes (utf8Bytes (toUpperStr passwd)) 0 14
  desBlock (keyBytes.take 7) kgsBytes ++ desBlock ((keyBytes.drop 7).take 7) kgsBytes

/-- The session `V1Session.fetchResponseKeys` always returns. -/
def V1Session.fetchResponseKeysVal (n : SessionData) : SessionData :=
  { n with responseKeyLM := lmowfv1Val n.password, responseKeyNT := ntowfv1 n.password }

/-- The value `kxKey` always returns. -/
def kxKeyVal (negotiateFlags : Nat) (sessionBaseKey lmChallengeResponse responseKeyLM : Bytes) :
    Bytes :=
  if flagIsSet NTLMSSP_NEGOTIATE_LM_KEY negotiateFlags then
    desBlock (responseKeyLM.take 7) (lmChallengeResponse.take 8) ++
      desBlock ([responseKeyLM.getD 7 0] ++ [0xBD, 0xBD, 0xBD, 0xBD, 0xBD, 0xBD])
        (lmChallengeResponse.take 8)
  else if flagIsSet NTLMSSP_REQUEST_NON_NT_SESSION_KEY negotiateFlags then
    responseKeyLM.take 8 ++ zeroBytes 8
  else sessionBaseKey

/-- The session `V1Session.computeExpectedResponses` always returns. -/
def V1Session.computeExpectedResponsesVal (n : SessionData) : SessionData :=
  if flagIsSet NTLMSSP_NEGOTIATE_EXTENDED_SESSIONSECURITY n.NegotiateFlags then
    { n with ntChallengeResponse :=
               desLVal n.responseKeyNT ((md5 (concat [n.serverChallenge, n.clientChallenge])).take 8),
             lmChallengeResponse := concat [n.clientChallenge, zeroBytes 16] }
  else
    { n with ntChallengeResponse := desLVal n.responseKeyNT n.serverChallenge,
             lmChallengeResponse := desLVal n.responseKeyLM n.serverChallenge }

/-- The session `V1Session.computeKeyExchangeKey` always returns. -/
def V1Session.computeKeyExchangeKeyVal (n : SessionData) : SessionData :=
  if flagIsSet NTLMSSP_NEGOTIATE_EXTENDED_SESSIONSECURITY n.NegotiateFlags then
    { n with keyExchangeKey :=
               hmacMd5 n.sessionBaseKey (concat [n.serverChallenge, n.lmChallengeResponse.take 8]) }
  else
    { n with keyExchangeKey :=
               kxKeyVal n.NegotiateFlags n.sessionBaseKey n.lmChallengeResponse n.responseKeyLM }

/-! ## Spec-side formulas and concrete inputs for the claims -/

/-- The spec's `temp` blob: `0x01 0x01 zeros(6) || timestamp(8) ||
clientChallenge(8) || zeros(4) || avPairs || zeros(4)`. -/
def tempBlob (timestamp clientChallenge avPairBytes : Bytes) : Bytes :=
  [0x01] ++ [0x01] ++ zeroBytes 6 ++ timestamp ++ clientChallenge ++
    zeroBytes 4 ++ avPairBytes ++ zeroBytes 4

/-- A v2 client session about to compute its encrypted session key with
`NEG_KEY_EXCH` clear: fresh except for a 16-byte key-exchange key. -/
def sessionC4 : SessionData := { keyExchangeKey := List.replicate 16 0x11 }

/-! ## The session state at the response comparison -/

/-- The v2 session state at the response comparison: identity adopted from
the AUTHENTICATE message, response keys fetched, expected responses
computed — every step before it is pure. -/
def v2ComparisonSession (n : SessionData) (am : AuthenticateMessage) : SessionData :=
  V2Session.computeExpectedResponses
    (V2Session.fetchResponseKeys (V2ServerSession.loadIdentity n am))
    am.ntlmV2Response.timeStamp am.ntlmV2Response.avPairsBytes

/-- The v2 authentication-failure condition: both the NT and the LM response
of the message differ from the expected ones. -/
abbrev V2ComparisonFailed (n : SessionData) (am : AuthenticateMessage) : Prop :=
  am.ntChallengeResponseFields ≠ (v2ComparisonSession n am).ntChallengeResponse ∧
  am.lmChallengeResponse ≠ (v2ComparisonSession n am).lmChallengeResponse

/-- The v1 session state at the response comparison, through the value
companions of the never-failing derivation steps. -/
def v1ComparisonSession (n : SessionData) (am : AuthenticateMessage) : SessionData :=
  V1Session.computeKeyExchangeKeyVal
    (V1Session.computeSessionBaseKey
      (V1Session.computeExpectedResponsesVal
        (V1Session.fetchResponseKeysVal (V1ServerSession.loadIdentity n am))))

/-- The v1 authentication-failure condition: the NT response mismatches and
either the LM response mismatches too or extended session security forbids
the LM fallback. -/
abbrev V1ComparisonFailed (n : SessionData) (am : AuthenticateMessage) : Prop :=
  am.ntChallengeResponseFields ≠ (v1ComparisonSession n am).ntChallengeResponse ∧
  (am.lmChallengeResponse ≠ (v1ComparisonSession n am).lmChallengeResponse ∨
   flagIsSet NTLMSSP_NEGOTIATE_EXTENDED_SESSIONSECURITY
     (v1ComparisonSession n am).NegotiateFlags = true)

/-! ## Concrete runs -/

/-- A fresh server session holding only an 8-byte server challenge. -/
def sessionC8 : SessionData := { serverChallenge := [1, 2, 3, 4, 5, 6, 7, 8] }

/-- A v1 AUTHENTICATE message (flags 0, empty identity) whose LM response
payload equals the expected classic LM response for `sessionC8`, so the
comparison succeeds through the LM fallback. -/
def amC8v1 : AuthenticateMessage :=
  { lmChallengeResponse := [128, 45, 85, 22, 75, 82, 135, 230, 202, 6, 226, 7, 22, 167, 53,
      145, 164, 125, 83, 16, 105, 70, 85, 209],
    mic := List.replicate 16 0x2a,
    version := some defaultVersion }

/-- A v2 AUTHENTICATE message whose LM response payload equals the expected
v2 LM response for `sessionC8`. -/
def amC8v2 : AuthenticateMessage :=
  { lmChallengeResponse := [175, 32, 204, 148, 137, 243, 143, 63, 37, 183, 194, 129, 64, 233,
      86, 48],
    mic := List.replicate 16 0x2a,
    version := some defaultVersion }

/-- A completely fresh server session. -/
def sessionC7 : SessionData := {}

/-- An AUTHENTICATE message carrying a user name and empty response payloads:
authentication fails on it, for v1 and v2 alike. -/
def amC7 : AuthenticateMessage := { userName := gostr "alice" }

/-- The NTLMv1 session of the MS-NLMP §4.2.2 test vectors, with extended
session security negotiated. -/
def sessionC2 : SessionData :=
  { NegotiateFlags := NTLMSSP_NEGOTIATE_EXTENDED_SESSIONSECURITY,
    responseKeyNT := ntowfv1 (gostr "Password"),
    responseKeyLM := ntowfv1 (gostr "Password"),
    serverChallenge := [0x01, 0x23, 0x45, 0x67, 0x89, 0xab, 0xcd, 0xef],
    clientChallenge := List.replicate 8 0xaa }

/-! ## Theorems: basic length and decoding lemmas -/

theorem leBytes_length (k v : Nat) : (leBytes k v).length = k := by
  induction k generalizing v with
  | zero => rfl
  | succ k ih => simp [leBytes, ih]

/-- `pure` on the error monad is `Except.ok`. -/
theorem pure_eq_ok {α : Type} (a : α) : (pure a : Except NtlmErr α) = Except.ok a := rfl

/-- Monadic bind on a successful `Except` value applies the continuation. -/
theorem ok_bind {α β : Type} (a : α) (f : α → Except NtlmErr β) :
    (Except.ok a >>= f) = f a := rfl

/-- Monadic bind on a failed `Except` value propagates the error. -/
theorem error_bind {α β : Type} (e : NtlmErr) (f : α → Except NtlmErr β) :
    ((Except.error e : Except NtlmErr α) >>= f) = Except.error e := rfl

theorem leDecode_leBytes (k v : Nat) : leDecode (leBytes k v) = v % 256 ^ k := by
  induction k generalizing v with
  | zero => simp [leBytes, leDecode, Nat.mod_one]
  | succ k ih =>
    simp only [leBytes, leDecode, List.foldr_cons]
    have h : leDecode (leBytes k (v / 256)) = v / 256 % 256 ^ k := ih (v / 256)
    simp only [leDecode] at h
    rw [h, Nat.pow_succ, Nat.mul_comm (256 ^ k) 256]
    have h2 : v % (256 * 256 ^ k) = v % 256 + 256 * (v / 256 % 256 ^ k) := Nat.mod_mul
    omega

theorem md5_length (msg : Bytes) : (md5 msg).length = 16 := by
  unfold md5 wordsToBytesLE concat
  simp [leBytes_length]

theorem hmacMd5_length (key msg : Bytes) : (hmacMd5 key msg).length = 16 := by
  unfold hmacMd5
  exact md5_length _

theorem desL_eq (key data : Bytes) : desL key data = Except.ok (desLVal key data) := rfl

theorem lmowfv1_eq (passwd : GoStr) : lmowfv1 passwd = Except.ok (lmowfv1Val passwd) := rfl

theorem fetchResponseKeysV1_eq (n : SessionData) :
    V1Session.fetchResponseKeys n = Except.ok (V1Session.fetchResponseKeysVal n) := rfl

theorem kxKey_eq (negotiateFlags : Nat) (sessionBaseKey lmChallengeResponse serverChallenge responseKeyLM : Bytes) :
    kxKey negotiateFlags sessionBaseKey lmChallengeResponse serverChallenge responseKeyLM =
      Except.ok (kxKeyVal negotiateFlags sessionBaseKey lmChallengeResponse responseKeyLM) := by
  unfold kxKey kxKeyVal
  by_cases h1 : flagIsSet NTLMSSP_NEGOTIATE_LM_KEY negotiateFlags = true
  · simp [h1]; rfl
  · simp only [Bool.not_eq_true] at h1
    by_cases h2 : flagIsSet NTLMSSP_REQUEST_NON_NT_SESSION_KEY negotiateFlags = true
    · simp [h1, h2, pure_eq_ok]
    · simp only [Bool.not_eq_true] at h2
      simp [h1, h2, pure_eq_ok]

theorem computeExpectedResponsesV1_eq (n : SessionData) :
    V1Session.computeExpectedResponses n = Except.ok (V1Session.computeExpectedResponsesVal n) := by
  unfold V1Session.computeExpectedResponses V1Session.computeExpectedResponsesVal
  by_cases h : flagIsSet NTLMSSP_NEGOTIATE_EXTENDED_SESSIONSECURITY n.NegotiateFlags = true
  · simp [h]; rfl
  · simp only [Bool.not_eq_true] at h
    simp [h]; rfl

theorem computeKeyExchangeKeyV1_eq (n : SessionData) :
    V1Session.computeKeyExchangeKey n = Except.ok (V1Session.computeKeyExchangeKeyVal n) := by
  unfold V1Session.computeKeyExchangeKey V1Session.computeKeyExchangeKeyVal
  by_cases h : flagIsSet NTLMSSP_NEGOTIATE_EXTENDED_SESSIONSECURITY n.NegotiateFlags = true
  · simp [h, pure_eq_ok]
  · simp only [Bool.not_eq_true] at h
    simp [h, kxKey_eq, pure_eq_ok, ok_bind]

/-- Claim C1: for every v2 session, `computeExpectedResponses(timestamp,
avPairBytes)` computes `temp = 0x01 || 0x01 || zeros(6) || timestamp ||
clientChallenge || zeros(4) || avPairBytes || zeros(4)` and sets
`ntChallengeResponse = HMAC-MD5(responseKeyNT, serverChallenge || temp) ||
temp`, `lmChallengeResponse = HMAC-MD5(responseKeyLM, serverChallenge ||
clientChallenge) || clientChallenge` and `sessionBaseKey =
HMAC-MD5(responseKeyNT, ntProof)` with `ntProof` the first 16 bytes of
`ntChallengeResponse`; `computeKeyExchangeKey` then sets `keyExchangeKey`
to `sessionBaseKey`. -/
theorem v2_computeExpectedResponses_correct (n : SessionData) (timestamp avPairBytes : Bytes) :
    (V2Session.computeExpectedResponses n timestamp avPairBytes).ntChallengeResponse =
      hmacMd5 n.responseKeyNT
          (n.serverChallenge ++ tempBlob timestamp n.clientChallenge avPairBytes) ++
        tempBlob timestamp n.clientChallenge avPairBytes ∧
    (V2Session.computeExpectedResponses n timestamp avPairBytes).lmChallengeResponse =
      hmacMd5 n.responseKeyLM (n.serverChallenge ++ n.clientChallenge) ++ n.clientChallenge ∧
    (V2Session.computeExpectedResponses n timestamp avPairBytes).sessionBaseKey =
      hmacMd5 n.responseKeyNT
        ((V2Session.computeExpectedResponses n timestamp avPairBytes).ntChallengeResponse.take 16) ∧
    (V2Session.computeKeyExchangeKey
        (V2Session.computeExpectedResponses n timestamp avPairBytes)).keyExchangeKey =
      (V2Session.computeExpectedResponses n timestamp avPairBytes).sessionBaseKey := by
  have htemp : concat [[0x01], [0x01], zeroBytes 6, timestamp, n.clientChallenge, zeroBytes 4,
      avPairBytes, zeroBytes 4] = tempBlob timestamp n.clientChallenge avPairBytes := by
    simp [concat, tempBlob]
  have hnt : (V2Session.computeExpectedResponses n timestamp avPairBytes).ntChallengeResponse =
      hmacMd5 n.responseKeyNT
          (n.serverChallenge ++ tempBlob timestamp n.clientChallenge avPairBytes) ++
        tempBlob timestamp n.clientChallenge avPairBytes := by
    show concat [hmacMd5 n.responseKeyNT (concat [n.serverChallenge, _]), _] = _
    rw [htemp]
    simp [concat]
  refine ⟨hnt, ?_, ?_, rfl⟩
  · show concat [hmacMd5 n.responseKeyLM (concat [n.serverChallenge, n.clientChallenge]),
      n.clientChallenge] = _
    simp [concat]
  · show hmacMd5 n.responseKeyNT (hmacMd5 n.responseKeyNT (concat [n.serverChallenge, _])) =
      hmacMd5 n.responseKeyNT (List.take 16 _)
    rw [hnt, List.take_left' (hmacMd5_length _ _), htemp]
    simp [concat]

/-- Claim C5: `ntowfv2(user, passwd, userDom)` is HMAC-MD5 keyed by
MD4(UTF-16LE(passwd)) over UTF-16LE(uppercase(user) || userDom) — the user
uppercased, the domain not — and `lmowfv2` returns the identical value. -/
theorem ntowfv2_lmowfv2_correct (user passwd userDom : GoStr) :
    ntowfv2 user passwd userDom =
      hmacMd5 (md4 (utf16FromString passwd)) (utf16FromString (toUpperStr user ++ userDom)) ∧
    lmowfv2 user passwd userDom = ntowfv2 user passwd userDom :=
  ⟨rfl, rfl⟩

/-- Claim C9: `timeToWindowsFileTime(t)` returns exactly 8 bytes that encode,
little-endian, the signed 64-bit value `unix_seconds(t) * 10_000_000 +
116_444_736_000_000_000`; at the Unix epoch it returns the little-endian
encoding of 116_444_736_000_000_000. -/
theorem timeToWindowsFileTime_correct (t : Int) :
    (timeToWindowsFileTime t).length = 8 ∧
    leDecode (timeToWindowsFileTime t) =
      ((t * 10000000 + 116444736000000000).emod 18446744073709551616).toNat ∧
    timeToWindowsFileTime 0 = [0x00, 0x80, 0x3e, 0xd5, 0xde, 0xb1, 0x9d, 0x01] := by
  refine ⟨leBytes_length 8 _, ?_, by decide⟩
  unfold timeToWindowsFileTime
  rw [leDecode_leBytes]
  have h0 : (0 : Int) ≤ (t * 10000000 + 116444736000000000).emod 18446744073709551616 :=
    Int.emod_nonneg _ (by norm_num)
  have h1 : (t * 10000000 + 116444736000000000).emod 18446744073709551616 <
      18446744073709551616 := Int.emod_lt_of_pos _ (by norm_num)
  have h2 : ((t * 10000000 + 116444736000000000).emod 18446744073709551616).toNat <
      18446744073709551616 := by omega
  have hp : (256 : Nat) ^ 8 = 18446744073709551616 := by norm_num
  rw [hp]
  exact Nat.mod_eq_of_lt h2

/-- Claim C10: `Seal` and `Sign` on every v1 and v2 session and every message
return a nil byte slice together with a nil error. -/
theorem seal_sign_stubs (n : SessionData) (message : Bytes) :
    V1Session.Seal n message = (none, none) ∧ V1Session.Sign n message = (none, none) ∧
    V2Session.Seal n message = (none, none) ∧ V2Session.Sign n message = (none, none) :=
  ⟨rfl, rfl, rfl, rfl⟩

/-- Claim C4 (failing part): with `NEG_KEY_EXCH` clear, the client's
`computeEncryptedSessionKey` echoes `keyExchangeKey` into
`encryptedRandomSessionKey` but leaves `exportedSessionKey` unassigned (still
empty on a fresh session) instead of setting it to `keyExchangeKey`, while
the server's `computeExportedSessionKey` does set `exportedSessionKey =
keyExchangeKey` — so the two sides end up with different exported keys. -/
theorem client_noKeyExch_exportedSessionKey_bug :
    V2ClientSession.computeEncryptedSessionKey sessionC4 (zeroBytes 16) =
      Except.ok { sessionC4 with encryptedRandomSessionKey := sessionC4.keyExchangeKey } ∧
    (V2ClientSession.computeEncryptedSessionKey sessionC4 (zeroBytes 16)).toOption.map
        (fun m => m.exportedSessionKey) = some [] ∧
    (V1ClientSession.computeEncryptedSessionKey sessionC4 (zeroBytes 16)).toOption.map
        (fun m => m.exportedSessionKey) = some [] ∧
    ([] : Bytes) ≠ sessionC4.keyExchangeKey ∧
    (V2ServerSession.computeExportedSessionKey sessionC4).toOption.map
        (fun m => m.exportedSessionKey) = some sessionC4.keyExchangeKey := by
  refine ⟨rfl, rfl, rfl, by decide, rfl⟩

/-! ## Error classification and frame facts for the post-comparison steps -/

theorem rc4Init_error {k : Bytes} {e : NtlmErr} (h : rc4Init k = Except.error e) :
    e = NtlmErr.rc4KeySize := by
  unfold rc4Init at h
  split at h
  · simpa using h.symm
  · simp at h

theorem rc4K_error {k d : Bytes} {e : NtlmErr} (h : rc4K k d = Except.error e) :
    e = NtlmErr.rc4KeySize := by
  unfold rc4K at h
  cases hi : rc4Init k with
  | error e2 =>
    rw [hi, error_bind] at h
    have h2 : e2 = e := by simpa using h
    exact h2 ▸ rc4Init_error hi
  | ok st => rw [hi, ok_bind] at h; simp [pure_eq_ok] at h

theorem v2_computeExportedSessionKey_error {n : SessionData} {e : NtlmErr}
    (h : V2ServerSession.computeExportedSessionKey n = Except.error e) :
    e = NtlmErr.rc4KeySize := by
  unfold V2ServerSession.computeExportedSessionKey at h
  by_cases hf : flagIsSet NTLMSSP_NEGOTIATE_KEY_EXCH n.NegotiateFlags = true
  · simp only [hf, if_true] at h
    cases hr : rc4K n.keyExchangeKey n.encryptedRandomSessionKey with
    | error e2 =>
      rw [hr, error_bind] at h
      have h2 : e2 = e := by simpa using h
      exact h2 ▸ rc4K_error hr
    | ok k => rw [hr, ok_bind] at h; simp [pure_eq_ok] at h
  · simp only [Bool.not_eq_true] at hf
    simp [hf, pure_eq_ok] at h

theorem v2_computeExportedSessionKey_ok {n m : SessionData}
    (h : V2ServerSession.computeExportedSessionKey n = Except.ok m) :
    m.mic = n.mic ∧ m.ntChallengeResponse = n.ntChallengeResponse ∧
    m.lmChallengeResponse = n.lmChallengeResponse := by
  unfold V2ServerSession.computeExportedSessionKey at h
  by_cases hf : flagIsSet NTLMSSP_NEGOTIATE_KEY_EXCH n.NegotiateFlags = true
  · simp only [hf, if_true] at h
    cases hr : rc4K n.keyExchangeKey n.encryptedRandomSessionKey with
    | error e2 => rw [hr, error_bind] at h; simp at h
    | ok k =>
      rw [hr, ok_bind] at h
      have h2 : { n with exportedSessionKey := k } = m := by simpa [pure_eq_ok] using h
      rw [← h2]
      exact ⟨rfl, rfl, rfl⟩
  · simp only [Bool.not_eq_true] at hf
    have h2 : { n with exportedSessionKey := n.keyExchangeKey } = m := by
      simpa [hf, pure_eq_ok] using h
    rw [← h2]
    exact ⟨rfl, rfl, rfl⟩

theorem v1_computeExportedSessionKey_error {n : SessionData} {e : NtlmErr}
    (h : V1ServerSession.computeExportedSessionKey n = Except.error e) :
    e = NtlmErr.rc4KeySize := by
  unfold V1ServerSession.computeExportedSessionKey at h
  by_cases hf : flagIsSet NTLMSSP_NEGOTIATE_KEY_EXCH n.NegotiateFlags = true
  · simp only [hf, if_true] at h
    cases hr : rc4K n.keyExchangeKey n.encryptedRandomSessionKey with
    | error e2 =>
      rw [hr, error_bind] at h
      have h2 : e2 = e := by simpa using h
      exact h2 ▸ rc4K_error hr
    | ok k => rw [hr, ok_bind] at h; simp [pure_eq_ok] at h
  · simp only [Bool.not_eq_true] at hf
    simp [hf, pure_eq_ok] at h

theorem v1_computeExportedSessionKey_ok {n m : SessionData}
    (h : V1ServerSession.computeExportedSessionKey n = Except.ok m) :
    m.mic = n.mic ∧ m.ntChallengeResponse = n.ntChallengeResponse ∧
    m.lmChallengeResponse = n.lmChallengeResponse := by
  unfold V1ServerSession.computeExportedSessionKey at h
  by_cases hf : flagIsSet NTLMSSP_NEGOTIATE_KEY_EXCH n.NegotiateFlags = true
  · simp only [hf, if_true] at h
    cases hr : rc4K n.keyExchangeKey n.encryptedRandomSessionKey with
    | error e2 => rw [hr, error_bind] at h; simp at h
    | ok k =>
      rw [hr, ok_bind] at h
      have h2 : { n with exportedSessionKey := k } = m := by simpa [pure_eq_ok] using h
      rw [← h2]
      exact ⟨rfl, rfl, rfl⟩
  · simp only [Bool.not_eq_true] at hf
    have h2 : { n with exportedSessionKey := n.keyExchangeKey } = m := by
      simpa [hf, pure_eq_ok] using h
    rw [← h2]
    exact ⟨rfl, rfl, rfl⟩

/-- Case description of `V2ServerSession.processAuthenticateMessage`: on a
failed comparison it stops at the comparison-point session with the
authentication error and an untouched message; otherwise it never returns the
authentication error, the expected responses survive into the final session,
the message's mic is saved before the message is zeroed, and (when the
message carries a version) the mic slot is the only message field changed. -/
theorem v2_processAuth_master (n : SessionData) (am : AuthenticateMessage) :
    (V2ComparisonFailed n am →
      V2ServerSession.processAuthenticateMessage n am =
        (v2ComparisonSession n am, am, some NtlmErr.couldNotAuthenticate)) ∧
    (¬ V2ComparisonFailed n am →
      ∃ n' am' e, V2ServerSession.processAuthenticateMessage n am = (n', am', e) ∧
        e ≠ some NtlmErr.couldNotAuthenticate ∧
        n'.ntChallengeResponse = (v2ComparisonSession n am).ntChallengeResponse ∧
        n'.lmChallengeResponse = (v2ComparisonSession n am).lmChallengeResponse ∧
        n'.mic = am.mic ∧
        (am.version ≠ none → am' = { am with mic := zeroBytes 16 })) := by
  unfold V2ComparisonFailed v2ComparisonSession
  simp only [V2ServerSession.processAuthenticateMessage]
  constructor
  · intro hC
    split
    · rfl
    · next h => exact absurd hC h
  · intro hC
    split
    · next h => exact absurd h hC
    · next h =>
      split
      · next e heq =>
        have he : e = NtlmErr.rc4KeySize := v2_computeExportedSessionKey_error heq
        refine ⟨_, _, _, rfl, by simp [he], ?_, ?_, rfl, fun _ => rfl⟩
        · simp [V2Session.computeKeyExchangeKey]
        · simp [V2Session.computeKeyExchangeKey]
      · next nn heq =>
        obtain ⟨hmic, hnt, hlm⟩ := v2_computeExportedSessionKey_ok heq
        split
        · next e2 heq2 =>
          have he2 : e2 = NtlmErr.rc4KeySize := rc4Init_error heq2
          refine ⟨_, _, _, rfl, by simp [he2], ?_, ?_, ?_, ?_⟩
          · simpa [V2Session.calculateKeys, V2Session.computeKeyExchangeKey] using hnt
          · simpa [V2Session.calculateKeys, V2Session.computeKeyExchangeKey] using hlm
          · simpa [V2Session.calculateKeys] using hmic
          · intro hv2
            rw [if_neg hv2]
        · next ch heq2 =>
          split
          · next e3 heq3 =>
            have he3 : e3 = NtlmErr.rc4KeySize := rc4Init_error heq3
            refine ⟨_, _, _, rfl, by simp [he3], ?_, ?_, ?_, ?_⟩
            · simpa [V2Session.calculateKeys, V2Session.computeKeyExchangeKey] using hnt
            · simpa [V2Session.calculateKeys, V2Session.computeKeyExchangeKey] using hlm
            · simpa [V2Session.calculateKeys] using hmic
            · intro hv2
              rw [if_neg hv2]
          · next sh heq3 =>
            refine ⟨_, _, _, rfl, by simp, ?_, ?_, ?_, ?_⟩
            · simpa [V2Session.calculateKeys, V2Session.computeKeyExchangeKey] using hnt
            · simpa [V2Session.calculateKeys, V2Session.computeKeyExchangeKey] using hlm
            · simpa [V2Session.calculateKeys] using hmic
            · intro hv2
              rw [if_neg hv2]

/-- Case description of `V1ServerSession.processAuthenticateMessage`,
analogous to the v2 one; the comparison-point session additionally carries
the v1 session base key and key exchange key, which are computed before the
comparison. -/
theorem v1_processAuth_master (n : SessionData) (am : AuthenticateMessage) :
    (V1ComparisonFailed n am →
      V1ServerSession.processAuthenticateMessage n am =
        (v1ComparisonSession n am, am, some NtlmErr.couldNotAuthenticate)) ∧
    (¬ V1ComparisonFailed n am →
      ∃ n' am' e, V1ServerSession.processAuthenticateMessage n am = (n', am', e) ∧
        e ≠ some NtlmErr.couldNotAuthenticate ∧
        n'.ntChallengeResponse = (v1ComparisonSession n am).ntChallengeResponse ∧
        n'.lmChallengeResponse = (v1ComparisonSession n am).lmChallengeResponse ∧
        n'.mic = am.mic ∧
        (am.version ≠ none → am' = { am with mic := zeroBytes 16 })) := by
  unfold V1ComparisonFailed v1ComparisonSession
  simp only [V1ServerSession.processAuthenticateMessage, fetchResponseKeysV1_eq,
    computeExpectedResponsesV1_eq, computeKeyExchangeKeyV1_eq]
  constructor
  · intro hC
    split
    · rfl
    · next h => exact absurd hC h
  · intro hC
    split
    · next h => exact absurd h hC
    · next h =>
      split
      · next e heq =>
        have he : e = NtlmErr.rc4KeySize := v1_computeExportedSessionKey_error heq
        refine ⟨_, _, _, rfl, by simp [he], rfl, rfl, rfl, fun _ => rfl⟩
      · next nn heq =>
        obtain ⟨hmic, hnt, hlm⟩ := v1_computeExportedSessionKey_ok heq
        split
        · next e2 heq2 =>
          have he2 : e2 = NtlmErr.rc4KeySize := rc4Init_error heq2
          refine ⟨_, _, _, rfl, by simp [he2], ?_, ?_, ?_, ?_⟩
          · simpa [V1Session.calculateKeys] using hnt
          · simpa [V1Session.calculateKeys] using hlm
          · simpa [V1Session.calculateKeys] using hmic
          · intro hv2
            rw [if_neg hv2]
        · next ch heq2 =>
          split
          · next e3 heq3 =>
            have he3 : e3 = NtlmErr.rc4KeySize := rc4Init_error heq3
            refine ⟨_, _, _, rfl, by simp [he3], ?_, ?_, ?_, ?_⟩
            · simpa [V1Session.calculateKeys] using hnt
            · simpa [V1Session.calculateKeys] using hlm
            · simpa [V1Session.calculateKeys] using hmic
            · intro hv2
              rw [if_neg hv2]
          · next sh heq3 =>
            refine ⟨_, _, _, rfl, by simp, ?_, ?_, ?_, ?_⟩
            · simpa [V1Session.calculateKeys] using hnt
            · simpa [V1Session.calculateKeys] using hlm
            · simpa [V1Session.calculateKeys] using hmic
            · intro hv2
              rw [if_neg hv2]

/-- The comparison-point session carries the message's negotiate flags. -/
theorem v1ComparisonSession_flags (n : SessionData) (am : AuthenticateMessage) :
    (v1ComparisonSession n am).NegotiateFlags = am.negotiateFlags := by
  simp [v1ComparisonSession, V1Session.computeKeyExchangeKeyVal, V1Session.computeSessionBaseKey,
    V1Session.computeExpectedResponsesVal, V1Session.fetchResponseKeysVal,
    V1ServerSession.loadIdentity, apply_ite]

/-- The v1 comparison-point session leaves the mic, the exported session key,
the four directional keys and both RC4 handles exactly as they were. -/
theorem v1ComparisonSession_frame (n : SessionData) (am : AuthenticateMessage) :
    (v1ComparisonSession n am).mic = n.mic ∧
    (v1ComparisonSession n am).exportedSessionKey = n.exportedSessionKey ∧
    (v1ComparisonSession n am).ClientSigningKey = n.ClientSigningKey ∧
    (v1ComparisonSession n am).ServerSigningKey = n.ServerSigningKey ∧
    (v1ComparisonSession n am).ClientSealingKey = n.ClientSealingKey ∧
    (v1ComparisonSession n am).ServerSealingKey = n.ServerSealingKey ∧
    (v1ComparisonSession n am).clientHandle = n.clientHandle ∧
    (v1ComparisonSession n am).serverHandle = n.serverHandle := by
  refine ⟨?_, ?_, ?_, ?_, ?_, ?_, ?_, ?_⟩ <;>
    simp [v1ComparisonSession, V1Session.computeKeyExchangeKeyVal,
      V1Session.computeSessionBaseKey, V1Session.computeExpectedResponsesVal,
      V1Session.fetchResponseKeysVal, V1ServerSession.loadIdentity, apply_ite]

/-- The v2 comparison-point session leaves the same fields untouched (all its
steps are plain record updates of other fields). -/
theorem v2ComparisonSession_frame (n : SessionData) (am : AuthenticateMessage) :
    (v2ComparisonSession n am).mic = n.mic ∧
    (v2ComparisonSession n am).exportedSessionKey = n.exportedSessionKey ∧
    (v2ComparisonSession n am).ClientSigningKey = n.ClientSigningKey ∧
    (v2ComparisonSession n am).ServerSigningKey = n.ServerSigningKey ∧
    (v2ComparisonSession n am).ClientSealingKey = n.ClientSealingKey ∧
    (v2ComparisonSession n am).ServerSealingKey = n.ServerSealingKey ∧
    (v2ComparisonSession n am).clientHandle = n.clientHandle ∧
    (v2ComparisonSession n am).serverHandle = n.serverHandle :=
  ⟨rfl, rfl, rfl, rfl, rfl, rfl, rfl, rfl⟩

/-- Claim C3: in the server's ProcessAuthenticateMessage, an NT response
mismatch falls back to the LM comparison, except that v1 under extended
session security refuses the fallback and fails even on an LM match; the
authentication-failure error is returned exactly when the comparison rules
fail. The expected responses are the ones the call leaves in the session. -/
theorem processAuthenticate_lm_fallback (n : SessionData) (am : AuthenticateMessage) :
    ((V1ServerSession.processAuthenticateMessage n am).2.2 =
        some NtlmErr.couldNotAuthenticate ↔
      am.ntChallengeResponseFields ≠
          (V1ServerSession.processAuthenticateMessage n am).1.ntChallengeResponse ∧
        (am.lmChallengeResponse ≠
            (V1ServerSession.processAuthenticateMessage n am).1.lmChallengeResponse ∨
         flagIsSet NTLMSSP_NEGOTIATE_EXTENDED_SESSIONSECURITY am.negotiateFlags = true)) ∧
    ((V2ServerSession.processAuthenticateMessage n am).2.2 =
        some NtlmErr.couldNotAuthenticate ↔
      am.ntChallengeResponseFields ≠
          (V2ServerSession.processAuthenticateMessage n am).1.ntChallengeResponse ∧
        am.lmChallengeResponse ≠
          (V2ServerSession.processAuthenticateMessage n am).1.lmChallengeResponse) := by
  constructor
  · by_cases hC : V1ComparisonFailed n am
    · rw [(v1_processAuth_master n am).1 hC]
      dsimp only
      unfold V1ComparisonFailed at hC
      rw [v1ComparisonSession_flags] at hC
      exact iff_of_true rfl hC
    · obtain ⟨n', am', e, heq, hne, hnt, hlm, hmic, hver⟩ := (v1_processAuth_master n am).2 hC
      rw [heq]
      dsimp only
      rw [hnt, hlm]
      unfold V1ComparisonFailed at hC
      rw [v1ComparisonSession_flags] at hC
      exact iff_of_false hne hC
  · by_cases hC : V2ComparisonFailed n am
    · rw [(v2_processAuth_master n am).1 hC]
      dsimp only
      unfold V2ComparisonFailed at hC
      exact iff_of_true rfl hC
    · obtain ⟨n', am', e, heq, hne, hnt, hlm, hmic, hver⟩ := (v2_processAuth_master n am).2 hC
      rw [heq]
      dsimp only
      rw [hnt, hlm]
      unfold V2ComparisonFailed at hC
      exact iff_of_false hne hC

/-- Claim C7 (amended): whenever ProcessAuthenticateMessage returns the
authentication-failure error, the session has gained no MAC-usable material —
its mic, exported session key, all four directional keys and both RC4 handles
are exactly as before the call (though identity, flags, challenges, response
keys and expected responses have been overwritten from the message). -/
theorem processAuthenticate_authFailure_no_keys (n : SessionData) (am : AuthenticateMessage) :
    ((V1ServerSession.processAuthenticateMessage n am).2.2 =
        some NtlmErr.couldNotAuthenticate →
      (V1ServerSession.processAuthenticateMessage n am).1.mic = n.mic ∧
      (V1ServerSession.processAuthenticateMessage n am).1.exportedSessionKey =
        n.exportedSessionKey ∧
      (V1ServerSession.processAuthenticateMessage n am).1.ClientSigningKey = n.ClientSigningKey ∧
      (V1ServerSession.processAuthenticateMessage n am).1.ServerSigningKey = n.ServerSigningKey ∧
      (V1ServerSession.processAuthenticateMessage n am).1.ClientSealingKey = n.ClientSealingKey ∧
      (V1ServerSession.processAuthenticateMessage n am).1.ServerSealingKey = n.ServerSealingKey ∧
      (V1ServerSession.processAuthenticateMessage n am).1.clientHandle = n.clientHandle ∧
      (V1ServerSession.processAuthenticateMessage n am).1.serverHandle = n.serverHandle) ∧
    ((V2ServerSession.processAuthenticateMessage n am).2.2 =
        some NtlmErr.couldNotAuthenticate →
      (V2ServerSession.processAuthenticateMessage n am).1.mic = n.mic ∧
      (V2ServerSession.processAuthenticateMessage n am).1.exportedSessionKey =
        n.exportedSessionKey ∧
      (V2ServerSession.processAuthenticateMessage n am).1.ClientSigningKey = n.ClientSigningKey ∧
      (V2ServerSession.processAuthenticateMessage n am).1.ServerSigningKey = n.ServerSigningKey ∧
      (V2ServerSession.processAuthenticateMessage n am).1.ClientSealingKey = n.ClientSealingKey ∧
      (V2ServerSession.processAuthenticateMessage n am).1.ServerSealingKey = n.ServerSealingKey ∧
      (V2ServerSession.processAuthenticateMessage n am).1.clientHandle = n.clientHandle ∧
      (V2ServerSession.processAuthenticateMessage n am).1.serverHandle = n.serverHandle) := by
  constructor
  · by_cases hC : V1ComparisonFailed n am
    · rw [(v1_processAuth_master n am).1 hC]
      intro _
      exact v1ComparisonSession_frame n am
    · obtain ⟨n', am', e, heq, hne, hnt, hlm, hmic, hver⟩ := (v1_processAuth_master n am).2 hC
      rw [heq]
      intro hq
      exact absurd hq hne
  · by_cases hC : V2ComparisonFailed n am
    · rw [(v2_processAuth_master n am).1 hC]
      intro _
      exact v2ComparisonSession_frame n am
    · obtain ⟨n', am', e, heq, hne, hnt, hlm, hmic, hver⟩ := (v2_processAuth_master n am).2 hC
      rw [heq]
      intro hq
      exact absurd hq hne

/-- Claim C8: in both servers' ProcessAuthenticateMessage, once the response
comparison has succeeded the session's `mic` is set to the message's 16-byte
Mic, the message's Mic field is overwritten with 16 zero bytes, and (the
message carrying a version, so the nil-version workaround does not fire) no
other field of the AUTHENTICATE message is modified. -/
theorem processAuthenticate_mic_swap (n : SessionData) (am : AuthenticateMessage)
    (v : VersionStruct) (hv : am.version = some v) :
    ((V1ServerSession.processAuthenticateMessage n am).2.2 ≠
        some NtlmErr.couldNotAuthenticate →
      (V1ServerSession.processAuthenticateMessage n am).1.mic = am.mic ∧
      (V1ServerSession.processAuthenticateMessage n am).2.1 =
        { am with mic := zeroBytes 16 }) ∧
    ((V2ServerSession.processAuthenticateMessage n am).2.2 ≠
        some NtlmErr.couldNotAuthenticate →
      (V2ServerSession.processAuthenticateMessage n am).1.mic = am.mic ∧
      (V2ServerSession.processAuthenticateMessage n am).2.1 =
        { am with mic := zeroBytes 16 }) := by
  have hvn : am.version ≠ none := by rw [hv]; simp
  constructor
  · by_cases hC : V1ComparisonFailed n am
    · rw [(v1_processAuth_master n am).1 hC]
      intro hq
      exact absurd rfl hq
    · obtain ⟨n', am', e, heq, hne, hnt, hlm, hmic, hver⟩ := (v1_processAuth_master n am).2 hC
      rw [heq]
      intro _
      exact ⟨hmic, hver hvn⟩
  · by_cases hC : V2ComparisonFailed n am
    · rw [(v2_processAuth_master n am).1 hC]
      intro hq
      exact absurd rfl hq
    · obtain ⟨n', am', e, heq, hne, hnt, hlm, hmic, hver⟩ := (v2_processAuth_master n am).2 hC
      rw [heq]
      intro _
      exact ⟨hmic, hver hvn⟩

/-- Claim C2: v1 computeExpectedResponses under extended session security
sets `ntChallengeResponse = DESL(responseKeyNT, MD5(serverChallenge ||
clientChallenge)[0:8])` and `lmChallengeResponse = clientChallenge ||
zeros(16)`; on the classic path (NoLMResponseNTLMv1 fixed false) it sets
`ntChallengeResponse = DESL(responseKeyNT, serverChallenge)` and
`lmChallengeResponse = DESL(responseKeyLM, serverChallenge)`; and
computeSessionBaseKey sets `sessionBaseKey = MD4(responseKeyNT)`. -/
theorem v1_computeExpectedResponses_correct (n : SessionData) :
    (flagIsSet NTLMSSP_NEGOTIATE_EXTENDED_SESSIONSECURITY n.NegotiateFlags = true →
      V1Session.computeExpectedResponses n =
        (desL n.responseKeyNT ((md5 (n.serverChallenge ++ n.clientChallenge)).take 8)).map
          (fun nt => { n with ntChallengeResponse := nt,
                              lmChallengeResponse := n.clientChallenge ++ zeroBytes 16 })) ∧
    (flagIsSet NTLMSSP_NEGOTIATE_EXTENDED_SESSIONSECURITY n.NegotiateFlags = false →
      V1Session.computeExpectedResponses n =
        (desL n.responseKeyNT n.serverChallenge).bind (fun nt =>
          (desL n.responseKeyLM n.serverChallenge).map (fun lm =>
            { n with ntChallengeResponse := nt, lmChallengeResponse := lm }))) ∧
    (V1Session.computeSessionBaseKey n).sessionBaseKey = md4 n.responseKeyNT := by
  refine ⟨?_, ?_, rfl⟩
  · intro h
    rw [computeExpectedResponsesV1_eq]
    unfold V1Session.computeExpectedResponsesVal
    rw [if_pos h, desL_eq]
    simp [Except.map, concat]
  · intro h
    rw [computeExpectedResponsesV1_eq]
    unfold V1Session.computeExpectedResponsesVal
    rw [if_neg (by simp [h]), desL_eq, desL_eq]
    simp [Except.map, Except.bind]

/-- Claim C7 (counterexample to the claim as stated): a failing
ProcessAuthenticateMessage call returns the authentication error and still
leaves the session observably mutated — its user field now holds the
message's user name, so the state is not as it was before the call. -/
theorem processAuthenticate_partial_state_counterexample :
    (V2ServerSession.processAuthenticateMessage sessionC7 amC7).2.2 =
      some NtlmErr.couldNotAuthenticate ∧
    (V2ServerSession.processAuthenticateMessage sessionC7 amC7).1.user ≠ sessionC7.user := by
  have h := (v2_processAuth_master sessionC7 amC7).1 (by decide)
  rw [h]
  exact ⟨rfl, by decide⟩

theorem processAuthenticate_authFailure_no_keys_witness :
    ((V1ServerSession.processAuthenticateMessage sessionC7 amC7).1.mic = sessionC7.mic ∧
     (V1ServerSession.processAuthenticateMessage sessionC7 amC7).1.exportedSessionKey =
       sessionC7.exportedSessionKey ∧
     (V1ServerSession.processAuthenticateMessage sessionC7 amC7).1.ClientSigningKey =
       sessionC7.ClientSigningKey ∧
     (V1ServerSession.processAuthenticateMessage sessionC7 amC7).1.ServerSigningKey =
       sessionC7.ServerSigningKey ∧
     (V1ServerSession.processAuthenticateMessage sessionC7 amC7).1.ClientSealingKey =
       sessionC7.ClientSealingKey ∧
     (V1ServerSession.processAuthenticateMessage sessionC7 amC7).1.ServerSealingKey =
       sessionC7.ServerSealingKey ∧
     (V1ServerSession.processAuthenticateMessage sessionC7 amC7).1.clientHandle =
       sessionC7.clientHandle ∧
     (V1ServerSession.processAuthenticateMessage sessionC7 amC7).1.serverHandle =
       sessionC7.serverHandle) ∧
    ((V2ServerSession.processAuthenticateMessage sessionC7 amC7).1.mic = sessionC7.mic ∧
     (V2ServerSession.processAuthenticateMessage sessionC7 amC7).1.exportedSessionKey =
       sessionC7.exportedSessionKey ∧
     (V2ServerSession.processAuthenticateMessage sessionC7 amC7).1.ClientSigningKey =
       sessionC7.ClientSigningKey ∧
     (V2ServerSession.processAuthenticateMessage sessionC7 amC7).1.ServerSigningKey =
       sessionC7.ServerSigningKey ∧
     (V2ServerSession.processAuthenticateMessage sessionC7 amC7).1.ClientSealingKey =
       sessionC7.ClientSealingKey ∧
     (V2ServerSession.processAuthenticateMessage sessionC7 amC7).1.ServerSealingKey =
       sessionC7.ServerSealingKey ∧
     (V2ServerSession.processAuthenticateMessage sessionC7 amC7).1.clientHandle =
       sessionC7.clientHandle ∧
     (V2ServerSession.processAuthenticateMessage sessionC7 amC7).1.serverHandle =
       sessionC7.serverHandle) := by
  have h1 := (v1_processAuth_master sessionC7 amC7).1 (by decide)
  have h2 := (v2_processAuth_master sessionC7 amC7).1 (by decide)
  exact ⟨(processAuthenticate_authFailure_no_keys sessionC7 amC7).1 (by rw [h1]),
         (processAuthenticate_authFailure_no_keys sessionC7 amC7).2 (by rw [h2])⟩

set_option maxRecDepth 100000 in
set_option maxHeartbeats 2000000 in
theorem processAuthenticate_mic_swap_witness :
    ((V1ServerSession.processAuthenticateMessage sessionC8 amC8v1).1.mic = amC8v1.mic ∧
     (V1ServerSession.processAuthenticateMessage sessionC8 amC8v1).2.1 =
       { amC8v1 with mic := zeroBytes 16 }) ∧
    ((V2ServerSession.processAuthenticateMessage sessionC8 amC8v2).1.mic = amC8v2.mic ∧
     (V2ServerSession.processAuthenticateMessage sessionC8 amC8v2).2.1 =
       { amC8v2 with mic := zeroBytes 16 }) := by
  obtain ⟨n1, am1, e1, heq1, hne1, -, -, -, -⟩ :=
    (v1_processAuth_master sessionC8 amC8v1).2 (by decide)
  obtain ⟨n2, am2, e2, heq2, hne2, -, -, -, -⟩ :=
    (v2_processAuth_master sessionC8 amC8v2).2 (by decide)
  exact ⟨(processAuthenticate_mic_swap sessionC8 amC8v1 defaultVersion rfl).1
           (by rw [heq1]; exact hne1),
         (processAuthenticate_mic_swap sessionC8 amC8v2 defaultVersion rfl).2
           (by rw [heq2]; exact hne2)⟩

theorem v1_computeExpectedResponses_correct_witness :
    flagIsSet NTLMSSP_NEGOTIATE_EXTENDED_SESSIONSECURITY sessionC2.NegotiateFlags = true ∧
    V1Session.computeExpectedResponses sessionC2 =
      (desL sessionC2.responseKeyNT
          ((md5 (sessionC2.serverChallenge ++ sessionC2.clientChallenge)).take 8)).map
        (fun nt => { sessionC2 with ntChallengeResponse := nt,
                                    lmChallengeResponse :=
                                      sessionC2.clientChallenge ++ zeroBytes 16 }) :=
  ⟨by decide, (v1_computeExpectedResponses_correct sessionC2).1 (by decide)⟩

end GoNtlm
